import Mathlib

/-!
Verification of the Budget-tracker repository: a shallow embedding of the
budget-statistics aggregator (server/routes.ts, GET /api/projects/:id/stats),
the storage-layer project queries (server/storage.ts), and the Gmail
connection singleton manager (server/storage.ts), together with theorems
settling the stated claims about them.

Monetary values (decimal columns read through parseFloat) are modelled as
rationals.  Calendar dates (SQL date columns) are modelled as integer day
numbers; JavaScript timestamps (Date.getTime) as integer milliseconds, so
that a date column date corresponds to the timestamp date * msPerDay and
toISOString day extraction is floor division by msPerDay.
-/

/-- Milliseconds per day, the divisor 1000 * 60 * 60 * 24 from routes.ts. -/
def msPerDay : Int := 86400000

/-- JavaScript Math.ceil(a / b) for integers a and b with b > 0. -/
def mathCeilDiv (a b : Int) : Int := -((-a).fdiv b)

/-- A row of the timesheets table (shared/schema.ts); only the columns read
by the statistics aggregator are modelled. -/
structure Timesheet where
  projectId : String
  hours : ℚ
  payRate : ℚ
  date : Int
  createdAt : Int
deriving DecidableEq

/-- A row of the equipment_logs table (shared/schema.ts). -/
structure EquipmentLog where
  projectId : String
  fuelCost : ℚ
  rentalCost : ℚ
  date : Int
  createdAt : Int
deriving DecidableEq

/-- A row of the subcontractor_entries table (shared/schema.ts). -/
structure SubcontractorEntry where
  projectId : String
  cost : ℚ
  date : Int
  createdAt : Int
deriving DecidableEq

/-- A row of the overhead_entries table (shared/schema.ts). -/
structure OverheadEntry where
  projectId : String
  cost : ℚ
  date : Int
  createdAt : Int
deriving DecidableEq

/-- A row of the progress_reports table (shared/schema.ts). -/
structure ProgressReport where
  id : String
  projectId : String
  percentComplete : Int
  date : Int
  createdAt : Int
deriving DecidableEq

/-- A row of the materials table (shared/schema.ts); a material is linked to
its owning progress report and carries no date of its own. -/
structure Material where
  progressReportId : String
  cost : ℚ
deriving DecidableEq

/-- A row of the projects table (shared/schema.ts); only the columns read by
the statistics aggregator are modelled. -/
structure Project where
  id : String
  totalBudget : ℚ
  startDate : Int
  endDate : Option Int
deriving DecidableEq

/-- A row of the gmail_connection table (shared/schema.ts). -/
structure GmailConnection where
  id : String
  userId : String
  gmailEmail : String
  description : Option String
  isActive : Bool
  lastSyncAt : Option Int
  syncStatus : Option String
  lastError : Option String
  createdAt : Int
  updatedAt : Int
deriving DecidableEq

/-- The database state visible to the operations under verification. -/
structure Database where
  projects : List Project
  timesheets : List Timesheet
  equipmentLogs : List EquipmentLog
  subcontractorEntries : List SubcontractorEntry
  overheadEntries : List OverheadEntry
  progressReports : List ProgressReport
  materials : List Material
  gmailConnections : List GmailConnection
deriving DecidableEq

/-- Descending lexicographic comparison of (date, createdAt) keys: the SQL
ORDER BY date DESC, createdAt DESC places a row before another exactly when
this relation holds of their keys. -/
def keyGe (a b : Int × Int) : Prop := b.1 < a.1 ∨ (a.1 = b.1 ∧ b.2 ≤ a.2)

/-- Strict descending lexicographic dominance of (date, createdAt) keys. -/
def keyLt (a b : Int × Int) : Prop := a.1 < b.1 ∨ (a.1 = b.1 ∧ a.2 < b.2)

instance decKeyGe : DecidableRel keyGe := fun a b => by
  unfold keyGe; infer_instance

instance decKeyLt : DecidableRel keyLt := fun a b => by
  unfold keyLt; infer_instance

/-- Row ordering induced by a (date, createdAt) key projection. -/
def byDateCreatedDesc {α : Type} (key : α → Int × Int) (a b : α) : Prop :=
  keyGe (key a) (key b)

instance decByDateCreatedDesc {α : Type} (key : α → Int × Int) :
    DecidableRel (byDateCreatedDesc key) :=
  fun a b => decKeyGe (key a) (key b)

instance totalByDateCreatedDesc {α : Type} (key : α → Int × Int) :
    IsTotal α (byDateCreatedDesc key) :=
  ⟨fun a b => by unfold byDateCreatedDesc keyGe; omega⟩

instance transByDateCreatedDesc {α : Type} (key : α → Int × Int) :
    IsTrans α (byDateCreatedDesc key) :=
  ⟨fun a b c hab hbc => by
    unfold byDateCreatedDesc keyGe at hab hbc ⊢; omega⟩

/-- DatabaseStorage.getProject: select from projects where id matches. -/
def getProject (db : Database) (id : String) : Option Project :=
  db.projects.find? (fun p => p.id == id)

/-- DatabaseStorage.getProjectTimesheets: select where projectId matches,
ordered by date desc, createdAt desc. -/
def getProjectTimesheets (ts : List Timesheet) (projectId : String) : List Timesheet :=
  List.insertionSort (byDateCreatedDesc (fun t => (t.date, t.createdAt)))
    (ts.filter (fun t => t.projectId == projectId))

/-- DatabaseStorage.getProjectEquipmentLogs: select where projectId matches,
ordered by date desc, createdAt desc. -/
def getProjectEquipmentLogs (logs : List EquipmentLog) (projectId : String) : List EquipmentLog :=
  List.insertionSort (byDateCreatedDesc (fun e => (e.date, e.createdAt)))
    (logs.filter (fun e => e.projectId == projectId))

/-- DatabaseStorage.getProjectSubcontractorEntries: select where projectId
matches, ordered by date desc, createdAt desc. -/
def getProjectSubcontractorEntries (entries : List SubcontractorEntry) (projectId : String) :
    List SubcontractorEntry :=
  List.insertionSort (byDateCreatedDesc (fun e => (e.date, e.createdAt)))
    (entries.filter (fun e => e.projectId == projectId))

/-- DatabaseStorage.getProjectOverheadEntries: select where projectId
matches, ordered by date desc, createdAt desc. -/
def getProjectOverheadEntries (entries : List OverheadEntry) (projectId : String) :
    List OverheadEntry :=
  List.insertionSort (byDateCreatedDesc (fun e => (e.date, e.createdAt)))
    (entries.filter (fun e => e.projectId == projectId))

/-- DatabaseStorage.getProjectProgressReports: select where projectId
matches, ordered by date desc, createdAt desc. -/
def getProjectProgressReports (reports : List ProgressReport) (projectId : String) :
    List ProgressReport :=
  List.insertionSort (byDateCreatedDesc (fun r => (r.date, r.createdAt)))
    (reports.filter (fun r => r.projectId == projectId))

/-- DatabaseStorage.getProjectMaterials: fetch the progress reports of the
project, return [] when there are none, else the materials whose
progressReportId is among the report ids. -/
def getProjectMaterials (reports : List ProgressReport) (mats : List Material)
    (projectId : String) : List Material :=
  let projectReports := reports.filter (fun r => r.projectId == projectId)
  if projectReports = [] then []
  else
    let reportIds := projectReports.map (fun r => r.id)
    mats.filter (fun m => reportIds.contains m.progressReportId)

/-- The labor reduce in routes.ts: sum + hours * payRate over timesheets. -/
def laborSpentOf (timesheetData : List Timesheet) : ℚ :=
  timesheetData.foldl (fun sum entry => sum + entry.hours * entry.payRate) 0

/-- The equipment reduce in routes.ts: sum + fuelCost + rentalCost. -/
def equipmentSpentOf (equipmentData : List EquipmentLog) : ℚ :=
  equipmentData.foldl (fun sum entry => sum + entry.fuelCost + entry.rentalCost) 0

/-- The subcontractor reduce in routes.ts: sum + cost. -/
def subcontractorsSpentOf (subcontractorData : List SubcontractorEntry) : ℚ :=
  subcontractorData.foldl (fun sum entry => sum + entry.cost) 0

/-- The overhead reduce in routes.ts: sum + cost. -/
def overheadSpentOf (overheadData : List OverheadEntry) : ℚ :=
  overheadData.foldl (fun sum entry => sum + entry.cost) 0

/-- The materials reduce in routes.ts: sum + cost over all project materials. -/
def materialsSpentOf (allMaterials : List Material) : ℚ :=
  allMaterials.foldl (fun sum material => sum + material.cost) 0

/-- The spentToday computation in routes.ts: a spread of four mapped filters
(timesheets, equipment logs, subcontractor entries, overhead entries, each
restricted to rows dated today) reduced by addition.  Materials do not
appear in this list in the source. -/
def spentTodayOf (timesheetData : List Timesheet) (equipmentData : List EquipmentLog)
    (subcontractorData : List SubcontractorEntry) (overheadData : List OverheadEntry)
    (todayStr : Int) : ℚ :=
  (((timesheetData.filter (fun t => t.date == todayStr)).map
      (fun t => t.hours * t.payRate))
    ++ ((equipmentData.filter (fun e => e.date == todayStr)).map
      (fun e => e.fuelCost + e.rentalCost))
    ++ ((subcontractorData.filter (fun s => s.date == todayStr)).map
      (fun s => s.cost))
    ++ ((overheadData.filter (fun o => o.date == todayStr)).map
      (fun o => o.cost))).foldl (fun sum val => sum + val) 0

/-- The latest progress lookup in routes.ts: progressData[0].percentComplete
when the ordered list is nonempty, else 0. -/
def latestProgressOf (progressData : List ProgressReport) : Int :=
  match progressData with
  | [] => 0
  | r :: _ => r.percentComplete

/-- daysSinceStart in routes.ts: Math.max(1, Math.ceil of the elapsed
milliseconds divided by msPerDay), with the start date taken at UTC
midnight of the startDate day. -/
def daysSinceStart (startDate todayMs : Int) : Int :=
  max 1 (mathCeilDiv (todayMs - startDate * msPerDay) msPerDay)

/-- The JSON record produced by GET /api/projects/:id/stats. -/
structure BudgetStats where
  totalBudget : ℚ
  totalSpent : ℚ
  spentToday : ℚ
  remaining : ℚ
  percentUsed : ℚ
  percentComplete : Int
  laborSpent : ℚ
  materialsSpent : ℚ
  equipmentSpent : ℚ
  subcontractorsSpent : ℚ
  overheadSpent : ℚ
  projectedFinalCost : ℚ
  variance : ℚ
  dailyBurnRate : ℚ
  daysRemaining : Int
deriving DecidableEq

/-- The body of the stats route after the project has been found
(routes.ts, GET /api/projects/:id/stats). -/
def computeStats (db : Database) (project : Project) (projectId : String)
    (todayMs : Int) : BudgetStats :=
  let timesheetData := getProjectTimesheets db.timesheets projectId
  let equipmentData := getProjectEquipmentLogs db.equipmentLogs projectId
  let subcontractorData := getProjectSubcontractorEntries db.subcontractorEntries projectId
  let overheadData := getProjectOverheadEntries db.overheadEntries projectId
  let progressData := getProjectProgressReports db.progressReports projectId
  let laborSpent := laborSpentOf timesheetData
  let equipmentSpent := equipmentSpentOf equipmentData
  let subcontractorsSpent := subcontractorsSpentOf subcontractorData
  let overheadSpent := overheadSpentOf overheadData
  let allMaterials := getProjectMaterials db.progressReports db.materials projectId
  let materialsSpent := materialsSpentOf allMaterials
  let totalSpent := laborSpent + equipmentSpent + subcontractorsSpent
    + overheadSpent + materialsSpent
  let totalBudget := project.totalBudget
  let remaining := totalBudget - totalSpent
  let percentUsed := totalSpent / totalBudget * 100
  let latestProgress := latestProgressOf progressData
  let days := daysSinceStart project.startDate todayMs
  let dailyBurnRate := totalSpent / (days : ℚ)
  let todayStr := todayMs.fdiv msPerDay
  let spentToday := spentTodayOf timesheetData equipmentData subcontractorData
    overheadData todayStr
  let projectedFinalCost :=
    if 0 < latestProgress then totalSpent / (latestProgress : ℚ) * 100 else totalBudget
  let variance := projectedFinalCost - totalBudget
  let daysRemaining : Int :=
    match project.endDate with
    | none => 0
    | some ed => max 0 (mathCeilDiv (ed * msPerDay - todayMs) msPerDay)
  { totalBudget := totalBudget
    totalSpent := totalSpent
    spentToday := spentToday
    remaining := remaining
    percentUsed := percentUsed
    percentComplete := latestProgress
    laborSpent := laborSpent
    materialsSpent := materialsSpent
    equipmentSpent := equipmentSpent
    subcontractorsSpent := subcontractorsSpent
    overheadSpent := overheadSpent
    projectedFinalCost := projectedFinalCost
    variance := variance
    dailyBurnRate := dailyBurnRate
    daysRemaining := daysRemaining }

/-- GET /api/projects/:id/stats: 404 (none) when the project is missing,
else the computed statistics record. -/
def projectStats (db : Database) (projectId : String) (todayMs : Int) :
    Option BudgetStats :=
  match getProject db projectId with
  | none => none
  | some project => some (computeStats db project projectId todayMs)

/-- All-zero statistics record, used only as a fallback when extracting the
value of projectStats on concrete inputs. -/
def defaultStats : BudgetStats :=
  { totalBudget := 0, totalSpent := 0, spentToday := 0, remaining := 0
    percentUsed := 0, percentComplete := 0, laborSpent := 0, materialsSpent := 0
    equipmentSpent := 0, subcontractorsSpent := 0, overheadSpent := 0
    projectedFinalCost := 0, variance := 0, dailyBurnRate := 0, daysRemaining := 0 }

/-- The statistics of a project on a concrete database, with an all-zero
fallback for a missing project. -/
def statsOf (db : Database) (projectId : String) (todayMs : Int) : BudgetStats :=
  (projectStats db projectId todayMs).getD defaultStats

/-- The insert type of the gmail_connection table
(insertGmailConnectionSchema in shared/schema.ts: id, createdAt and
updatedAt omitted, every other column accepted).  A field holding none is
absent from the insert payload, so the column default applies: true for
isActive, the string pending for syncStatus, null for the nullable
columns. -/
structure InsertGmailConnection where
  userId : String
  gmailEmail : String
  description : Option String
  isActive : Option Bool
  lastSyncAt : Option Int
  syncStatus : Option String
  lastError : Option String
deriving DecidableEq

/-- The update payload of DatabaseStorage.updateGmailConnection, typed
Partial of InsertGmailConnection: an outer none means the key is absent and
the stored column keeps its value; for nullable columns the inner option is
the stored value itself. -/
structure UpdateGmailConnection where
  userId : Option String
  gmailEmail : Option String
  description : Option (Option String)
  isActive : Option Bool
  lastSyncAt : Option (Option Int)
  syncStatus : Option (Option String)
  lastError : Option (Option String)
deriving DecidableEq

/-- An update payload with every key absent. -/
def emptyGmailUpdate : UpdateGmailConnection :=
  { userId := none, gmailEmail := none, description := none, isActive := none
    lastSyncAt := none, syncStatus := none, lastError := none }

/-- The effect of the drizzle set clause in updateGmailConnection on one
row: present keys overwrite the column, updatedAt is always set to now. -/
def applyGmailUpdate (r : GmailConnection) (u : UpdateGmailConnection)
    (now : Int) : GmailConnection :=
  { id := r.id
    userId := u.userId.getD r.userId
    gmailEmail := u.gmailEmail.getD r.gmailEmail
    description := u.description.getD r.description
    isActive := u.isActive.getD r.isActive
    lastSyncAt := u.lastSyncAt.getD r.lastSyncAt
    syncStatus := u.syncStatus.getD r.syncStatus
    lastError := u.lastError.getD r.lastError
    createdAt := r.createdAt
    updatedAt := now }

/-- Number of rows of the gmail_connection table with isActive = true. -/
def countActive (s : List GmailConnection) : Nat :=
  (s.filter (fun r => r.isActive)).length

/-- DatabaseStorage.getGmailConnection: select where isActive = true,
limit 1. -/
def getGmailConnection (s : List GmailConnection) : Option GmailConnection :=
  (s.filter (fun r => r.isActive)).head?

/-- DatabaseStorage.createGmailConnection: inside one transaction (under the
advisory lock) set isActive = false and updatedAt = now on every active row,
then insert the new row, whose column values come from the insert payload
with column defaults filled in.  Returns the inserted row and the new table
state. -/
def createGmailConnection (s : List GmailConnection) (ins : InsertGmailConnection)
    (newId : String) (now : Int) : GmailConnection × List GmailConnection :=
  let deactivated := s.map (fun r =>
    if r.isActive then { r with isActive := false, updatedAt := now } else r)
  let row : GmailConnection :=
    { id := newId
      userId := ins.userId
      gmailEmail := ins.gmailEmail
      description := ins.description
      isActive := ins.isActive.getD true
      lastSyncAt := ins.lastSyncAt
      syncStatus := some (ins.syncStatus.getD "pending")
      lastError := ins.lastError
      createdAt := now
      updatedAt := now }
  (row, deactivated ++ [row])

/-- DatabaseStorage.updateGmailConnection: update the rows whose id matches,
returning the first updated row (undefined, here none, when no row
matched) and the new table state. -/
def updateGmailConnection (s : List GmailConnection) (id : String)
    (u : UpdateGmailConnection) (now : Int) :
    Option GmailConnection × List GmailConnection :=
  let s' := s.map (fun r => if r.id = id then applyGmailUpdate r u now else r)
  ((s'.filter (fun r => r.id == id)).head?, s')

/-- DatabaseStorage.deleteGmailConnection: soft delete, setting
isActive = false and updatedAt = now on the rows whose id matches. -/
def deleteGmailConnection (s : List GmailConnection) (id : String)
    (now : Int) : List GmailConnection :=
  s.map (fun r =>
    if r.id = id then { r with isActive := false, updatedAt := now } else r)

/-- deleteGmailConnection lifted to the whole database state: the method
issues a single UPDATE against the gmail_connection table, every other
table is untouched. -/
def deleteGmailConnectionDb (db : Database) (id : String) (now : Int) : Database :=
  { db with gmailConnections := deleteGmailConnection db.gmailConnections id now }

/-- Per-row frame condition of the soft delete: id and all data columns are
kept; the matching row has isActive = false and updatedAt = now afterwards,
every other row is returned verbatim. -/
def deleteFrame (id : String) (now : Int) (r r' : GmailConnection) : Prop :=
  r'.id = r.id ∧ r'.userId = r.userId ∧ r'.gmailEmail = r.gmailEmail ∧
  r'.description = r.description ∧ r'.syncStatus = r.syncStatus ∧
  r'.lastSyncAt = r.lastSyncAt ∧ r'.lastError = r.lastError ∧
  r'.createdAt = r.createdAt ∧
  (r.id = id → r'.isActive = false ∧ r'.updatedAt = now) ∧
  (r.id ≠ id → r' = r)

/-- A cost entry in the sense of the spec glossary: any of the five record
kinds contributing a monetary amount to a project. -/
inductive CostEntry where
  | timesheet (t : Timesheet)
  | equipmentLog (e : EquipmentLog)
  | subcontractorEntry (s : SubcontractorEntry)
  | overheadEntry (o : OverheadEntry)
  | material (m : Material)
deriving DecidableEq

/-- Insert one cost entry into its table. -/
def addCostEntry (db : Database) : CostEntry → Database
  | .timesheet t => { db with timesheets := t :: db.timesheets }
  | .equipmentLog e => { db with equipmentLogs := e :: db.equipmentLogs }
  | .subcontractorEntry s => { db with subcontractorEntries := s :: db.subcontractorEntries }
  | .overheadEntry o => { db with overheadEntries := o :: db.overheadEntries }
  | .material m => { db with materials := m :: db.materials }

/-- The monetary contribution of one cost entry, the type-specific formula
of the spec data model. -/
def costEntryContribution : CostEntry → ℚ
  | .timesheet t => t.hours * t.payRate
  | .equipmentLog e => e.fuelCost + e.rentalCost
  | .subcontractorEntry s => s.cost
  | .overheadEntry o => o.cost
  | .material m => m.cost

/-- Modelled from the spec (refinement comparison for the spentToday claim):
the sum of the contributions of every cost-entry type dated today, a
material being dated by its owning progress report.  This follows the
words of the spec, not the source, and is compared against the spentToday
field the source computes. -/
def spentTodaySpec (db : Database) (projectId : String) (todayStr : Int) : ℚ :=
  ((db.timesheets.filter (fun t => t.projectId == projectId && t.date == todayStr)).map
      (fun t => t.hours * t.payRate)).sum
  + ((db.equipmentLogs.filter (fun e => e.projectId == projectId && e.date == todayStr)).map
      (fun e => e.fuelCost + e.rentalCost)).sum
  + ((db.subcontractorEntries.filter (fun s => s.projectId == projectId && s.date == todayStr)).map
      (fun s => s.cost)).sum
  + ((db.overheadEntries.filter (fun o => o.projectId == projectId && o.date == todayStr)).map
      (fun o => o.cost)).sum
  + ((db.materials.filter (fun m =>
        ((db.progressReports.filter (fun r => r.projectId == projectId && r.date == todayStr)).map
          (fun r => r.id)).contains m.progressReportId)).map
      (fun m => m.cost)).sum

/-- A database with no rows at all. -/
def emptyDb : Database :=
  { projects := [], timesheets := [], equipmentLogs := [], subcontractorEntries := []
    overheadEntries := [], progressReports := [], materials := [], gmailConnections := [] }

/-- Concrete gmail row: active connection with id a. -/
def gmailRowA : GmailConnection :=
  { id := "a", userId := "u1", gmailEmail := "inbox-a", description := none
    isActive := true, lastSyncAt := none, syncStatus := some "pending"
    lastError := none, createdAt := 0, updatedAt := 0 }

/-- Concrete gmail row: inactive connection with id b. -/
def gmailRowB : GmailConnection :=
  { id := "b", userId := "u1", gmailEmail := "inbox-b", description := none
    isActive := false, lastSyncAt := none, syncStatus := some "pending"
    lastError := none, createdAt := 0, updatedAt := 0 }

/-- Concrete update payload that sets isActive to true. -/
def updSetActive : UpdateGmailConnection :=
  { emptyGmailUpdate with isActive := some true }

/-- Concrete gmail table used to exercise the singleton invariant: one
active row and one inactive row. -/
def stC1 : List GmailConnection := [gmailRowA, gmailRowB]

/-- Concrete insert payload with the isActive key absent. -/
def insC1 : InsertGmailConnection :=
  { userId := "u1", gmailEmail := "inbox-c", description := none
    isActive := none, lastSyncAt := none, syncStatus := none, lastError := none }

/-- Concrete project for the spentToday scenario. -/
def projC2 : Project :=
  { id := "p1", totalBudget := 1000, startDate := 0, endDate := none }

/-- Concrete progress report dated on day 0 for the spentToday scenario. -/
def repC2 : ProgressReport :=
  { id := "r1", projectId := "p1", percentComplete := 10, date := 0, createdAt := 0 }

/-- Concrete material of cost 5 for the spentToday scenario. -/
def matC2 : Material := { progressReportId := "r1", cost := 5 }

/-- Database for the spentToday scenario: one project, one progress report
dated today (day 0), one material of cost 5 under that report. -/
def dbC2 : Database :=
  { emptyDb with projects := [projC2], progressReports := [repC2], materials := [matC2] }

/-- Database for the category-sum scenario: one entry of each kind. -/
def dbC3 : Database :=
  { emptyDb with
    projects := [{ id := "p1", totalBudget := 100000, startDate := 0, endDate := none }]
    timesheets := [{ projectId := "p1", hours := 8, payRate := 25, date := 0, createdAt := 0 }]
    equipmentLogs := [{ projectId := "p1", fuelCost := 10, rentalCost := 20, date := 0, createdAt := 0 }]
    subcontractorEntries := [{ projectId := "p1", cost := 7, date := 0, createdAt := 0 }]
    overheadEntries := [{ projectId := "p1", cost := 3, date := 0, createdAt := 0 }]
    progressReports := [{ id := "r1", projectId := "p1", percentComplete := 10, date := 0, createdAt := 0 }]
    materials := [{ progressReportId := "r1", cost := 5 }] }

/-- Database for the projection scenario of the spec: totalBudget 50000,
latest percentComplete 50, totalSpent 30000. -/
def dbC4 : Database :=
  { emptyDb with
    projects := [{ id := "p4", totalBudget := 50000, startDate := 0, endDate := none }]
    progressReports := [{ id := "r4", projectId := "p4", percentComplete := 50, date := 0, createdAt := 0 }]
    subcontractorEntries := [{ projectId := "p4", cost := 30000, date := 0, createdAt := 0 }] }

/-- The statistics record of the projection scenario. -/
def statsC4 : BudgetStats := statsOf dbC4 "p4" msPerDay

/-- Database for the latest-progress-report scenario: three reports, the
one with id r1 having the strictly greatest (date, createdAt) key. -/
def dbC5 : Database :=
  { emptyDb with
    projects := [{ id := "p5", totalBudget := 100, startDate := 0, endDate := none }]
    progressReports :=
      [{ id := "r3", projectId := "p5", percentComplete := 10, date := 1, createdAt := 9 },
       { id := "r1", projectId := "p5", percentComplete := 40, date := 2, createdAt := 5 },
       { id := "r2", projectId := "p5", percentComplete := 20, date := 2, createdAt := 3 }] }

/-- The report with the strictly greatest key in dbC5. -/
def repC5 : ProgressReport :=
  { id := "r1", projectId := "p5", percentComplete := 40, date := 2, createdAt := 5 }

/-- Database for the burn-rate scenario: a project starting on day 0. -/
def dbC6 : Database :=
  { emptyDb with
    projects := [{ id := "p6", totalBudget := 100, startDate := 0, endDate := none }] }

/-- Database for the monotonicity scenario: budget 100, spend 10. -/
def dbC7 : Database :=
  { emptyDb with
    projects := [{ id := "p7", totalBudget := 100, startDate := 0, endDate := none }]
    subcontractorEntries := [{ projectId := "p7", cost := 10, date := 0, createdAt := 0 }] }

/-- The cost entry added in the monotonicity scenario. -/
def entC7 : CostEntry :=
  .timesheet { projectId := "p7", hours := 2, payRate := 5, date := 0, createdAt := 0 }

/-- Concrete gmail table for the missing-id scenario: a single row with
id a, so id b is missing. -/
def stC8 : List GmailConnection := [gmailRowA]

/-- Concrete insert payload that explicitly sets isActive to false. -/
def insC9 : InsertGmailConnection :=
  { userId := "u1", gmailEmail := "inbox-d", description := none
    isActive := some false, lastSyncAt := none, syncStatus := none, lastError := none }

/-- Concrete gmail table for the inactive-creation scenario. -/
def stC9 : List GmailConnection := [gmailRowA]

/-- A left fold that adds a per-element amount equals the sum of the mapped
list, shifted by the initial accumulator. -/
theorem foldl_add_eq_sum {α : Type} (f : α → ℚ) (g : ℚ → α → ℚ)
    (hg : ∀ s e, g s e = s + f e) :
    ∀ (l : List α) (init : ℚ), l.foldl g init = init + (l.map f).sum
  | [], init => by simp
  | x :: xs, init => by
    rw [List.foldl_cons, foldl_add_eq_sum f g hg xs, hg, List.map_cons, List.sum_cons]
    ring

theorem laborSpentOf_eq (l : List Timesheet) :
    laborSpentOf l = (l.map (fun t => t.hours * t.payRate)).sum := by
  simpa using foldl_add_eq_sum (fun t => t.hours * t.payRate) _ (fun s e => rfl) l 0

theorem equipmentSpentOf_eq (l : List EquipmentLog) :
    equipmentSpentOf l = (l.map (fun e => e.fuelCost + e.rentalCost)).sum := by
  simpa using foldl_add_eq_sum (fun e => e.fuelCost + e.rentalCost) _
    (fun s e => by dsimp only; ring) l 0

theorem subcontractorsSpentOf_eq (l : List SubcontractorEntry) :
    subcontractorsSpentOf l = (l.map (fun e => e.cost)).sum := by
  simpa using foldl_add_eq_sum (fun e : SubcontractorEntry => e.cost) _ (fun s e => rfl) l 0

theorem overheadSpentOf_eq (l : List OverheadEntry) :
    overheadSpentOf l = (l.map (fun e => e.cost)).sum := by
  simpa using foldl_add_eq_sum (fun e : OverheadEntry => e.cost) _ (fun s e => rfl) l 0

theorem materialsSpentOf_eq (l : List Material) :
    materialsSpentOf l = (l.map (fun m => m.cost)).sum := by
  simpa using foldl_add_eq_sum (fun m : Material => m.cost) _ (fun s e => rfl) l 0

/-- Sorting leaves the sum of a mapped list unchanged. -/
theorem sum_map_insertionSort {α : Type} (r : α → α → Prop) [DecidableRel r]
    (f : α → ℚ) (l : List α) :
    ((List.insertionSort r l).map f).sum = (l.map f).sum :=
  ((List.perm_insertionSort r l).map f).sum_eq

/-- Sorting then filtering is a permutation of filtering alone. -/
theorem filter_insertionSort_perm {α : Type} (r : α → α → Prop) [DecidableRel r]
    (p : α → Bool) (l : List α) :
    ((List.insertionSort r l).filter p).Perm (l.filter p) :=
  (List.perm_insertionSort r l).filter p

theorem laborSpent_getter (ts : List Timesheet) (pid : String) :
    laborSpentOf (getProjectTimesheets ts pid)
      = ((ts.filter (fun t => t.projectId == pid)).map (fun t => t.hours * t.payRate)).sum := by
  rw [laborSpentOf_eq, getProjectTimesheets, sum_map_insertionSort]

theorem equipmentSpent_getter (logs : List EquipmentLog) (pid : String) :
    equipmentSpentOf (getProjectEquipmentLogs logs pid)
      = ((logs.filter (fun e => e.projectId == pid)).map (fun e => e.fuelCost + e.rentalCost)).sum := by
  rw [equipmentSpentOf_eq, getProjectEquipmentLogs, sum_map_insertionSort]

theorem subcontractorsSpent_getter (entries : List SubcontractorEntry) (pid : String) :
    subcontractorsSpentOf (getProjectSubcontractorEntries entries pid)
      = ((entries.filter (fun e => e.projectId == pid)).map (fun e => e.cost)).sum := by
  rw [subcontractorsSpentOf_eq, getProjectSubcontractorEntries, sum_map_insertionSort]

theorem overheadSpent_getter (entries : List OverheadEntry) (pid : String) :
    overheadSpentOf (getProjectOverheadEntries entries pid)
      = ((entries.filter (fun e => e.projectId == pid)).map (fun e => e.cost)).sum := by
  rw [overheadSpentOf_eq, getProjectOverheadEntries, sum_map_insertionSort]

/-- The early return of getProjectMaterials coincides with the plain
filter over the materials table. -/
theorem getProjectMaterials_eq (reports : List ProgressReport) (mats : List Material)
    (pid : String) :
    getProjectMaterials reports mats pid
      = mats.filter (fun m =>
          ((reports.filter (fun r => r.projectId == pid)).map (fun r => r.id)).contains
            m.progressReportId) := by
  unfold getProjectMaterials
  by_cases h : reports.filter (fun r => r.projectId == pid) = []
  · simp [h]
  · simp [h]

/-- Unpacking a successful statistics response: the project was found and
the record is computeStats of it. -/
theorem projectStats_some {db : Database} {pid : String} {today : Int} {s : BudgetStats}
    (h : projectStats db pid today = some s) :
    ∃ p, getProject db pid = some p ∧ s = computeStats db p pid today := by
  unfold projectStats at h
  cases hg : getProject db pid with
  | none => rw [hg] at h; exact absurd h (by simp)
  | some p => rw [hg] at h; exact ⟨p, rfl, (Option.some.inj h).symm⟩

theorem computeStats_totalBudget (db : Database) (p : Project) (pid : String) (t : Int) :
    (computeStats db p pid t).totalBudget = p.totalBudget := rfl

theorem computeStats_laborSpent (db : Database) (p : Project) (pid : String) (t : Int) :
    (computeStats db p pid t).laborSpent
      = laborSpentOf (getProjectTimesheets db.timesheets pid) := rfl

theorem computeStats_equipmentSpent (db : Database) (p : Project) (pid : String) (t : Int) :
    (computeStats db p pid t).equipmentSpent
      = equipmentSpentOf (getProjectEquipmentLogs db.equipmentLogs pid) := rfl

theorem computeStats_subcontractorsSpent (db : Database) (p : Project) (pid : String) (t : Int) :
    (computeStats db p pid t).subcontractorsSpent
      = subcontractorsSpentOf (getProjectSubcontractorEntries db.subcontractorEntries pid) := rfl

theorem computeStats_overheadSpent (db : Database) (p : Project) (pid : String) (t : Int) :
    (computeStats db p pid t).overheadSpent
      = overheadSpentOf (getProjectOverheadEntries db.overheadEntries pid) := rfl

theorem computeStats_materialsSpent (db : Database) (p : Project) (pid : String) (t : Int) :
    (computeStats db p pid t).materialsSpent
      = materialsSpentOf (getProjectMaterials db.progressReports db.materials pid) := rfl

theorem computeStats_totalSpent (db : Database) (p : Project) (pid : String) (t : Int) :
    (computeStats db p pid t).totalSpent
      = (computeStats db p pid t).laborSpent + (computeStats db p pid t).equipmentSpent
        + (computeStats db p pid t).subcontractorsSpent + (computeStats db p pid t).overheadSpent
        + (computeStats db p pid t).materialsSpent := rfl

theorem computeStats_remaining (db : Database) (p : Project) (pid : String) (t : Int) :
    (computeStats db p pid t).remaining
      = (computeStats db p pid t).totalBudget - (computeStats db p pid t).totalSpent := rfl

theorem computeStats_percentUsed (db : Database) (p : Project) (pid : String) (t : Int) :
    (computeStats db p pid t).percentUsed
      = (computeStats db p pid t).totalSpent / (computeStats db p pid t).totalBudget * 100 := rfl

theorem computeStats_percentComplete (db : Database) (p : Project) (pid : String) (t : Int) :
    (computeStats db p pid t).percentComplete
      = latestProgressOf (getProjectProgressReports db.progressReports pid) := rfl

theorem computeStats_dailyBurnRate (db : Database) (p : Project) (pid : String) (t : Int) :
    (computeStats db p pid t).dailyBurnRate
      = (computeStats db p pid t).totalSpent / ((daysSinceStart p.startDate t : Int) : ℚ) := rfl

theorem computeStats_spentToday (db : Database) (p : Project) (pid : String) (t : Int) :
    (computeStats db p pid t).spentToday
      = spentTodayOf (getProjectTimesheets db.timesheets pid)
          (getProjectEquipmentLogs db.equipmentLogs pid)
          (getProjectSubcontractorEntries db.subcontractorEntries pid)
          (getProjectOverheadEntries db.overheadEntries pid)
          (t.fdiv msPerDay) := rfl

theorem computeStats_projectedFinalCost (db : Database) (p : Project) (pid : String) (t : Int) :
    (computeStats db p pid t).projectedFinalCost
      = (if 0 < (computeStats db p pid t).percentComplete
          then (computeStats db p pid t).totalSpent
            / (((computeStats db p pid t).percentComplete : Int) : ℚ) * 100
          else (computeStats db p pid t).totalBudget) := rfl

theorem computeStats_variance (db : Database) (p : Project) (pid : String) (t : Int) :
    (computeStats db p pid t).variance
      = (computeStats db p pid t).projectedFinalCost - (computeStats db p pid t).totalBudget := rfl

/-- A row map that never turns an inactive row active cannot increase the
number of active rows. -/
theorem countActive_map_le (f : GmailConnection → GmailConnection)
    (hf : ∀ r, (f r).isActive = true → r.isActive = true) :
    ∀ s : List GmailConnection, countActive (s.map f) ≤ countActive s := by
  intro s
  induction s with
  | nil => simp [countActive]
  | cons r rs ih =>
    unfold countActive at ih ⊢
    rw [List.map_cons]
    cases hfr : (f r).isActive with
    | true =>
      rw [List.filter_cons_of_pos (by simpa using hfr),
        List.filter_cons_of_pos (by simpa using hf r hfr)]
      simpa using ih
    | false =>
      rw [List.filter_cons_of_neg (by simp [hfr])]
      cases hr : r.isActive with
      | true => rw [List.filter_cons_of_pos (by simpa using hr)]; exact le_trans ih (by simp)
      | false => rw [List.filter_cons_of_neg (by simp [hr])]; exact ih

theorem countActive_append (s t : List GmailConnection) :
    countActive (s ++ t) = countActive s + countActive t := by
  simp [countActive, List.filter_append]

/-- Deactivating every active row leaves no active rows. -/
theorem countActive_deactivateAll (s : List GmailConnection) (now : Int) :
    countActive (s.map (fun r =>
      if r.isActive then { r with isActive := false, updatedAt := now } else r)) = 0 := by
  induction s with
  | nil => simp [countActive]
  | cons r rs ih =>
    unfold countActive at ih ⊢
    rw [List.map_cons, List.filter_cons_of_neg]
    · exact ih
    · by_cases hr : r.isActive <;> simp [hr]

/-- No active rows means countActive is zero, and conversely. -/
theorem countActive_eq_zero {s : List GmailConnection} :
    countActive s = 0 ↔ ∀ r ∈ s, r.isActive = false := by
  unfold countActive
  rw [List.length_eq_zero, List.filter_eq_nil_iff]
  constructor
  · intro h r hr
    have := h r hr
    simpa using this
  · intro h r hr
    simp [h r hr]

theorem countActive_singleton (r : GmailConnection) :
    countActive [r] = if r.isActive then 1 else 0 := by
  by_cases h : r.isActive <;> simp [countActive, h]

/-- Claim C1 (corrected): the claim quantifies over every partial-fields
argument of updateGmailConnection, but the update payload may set isActive
to true on an inactive row while another row is active: starting from the
two-row state stC1 with one active row, updating row b with isActive true
yields two active rows, so the singleton invariant is not preserved. -/
theorem gmail_singleton_counterexample :
    countActive stC1 ≤ 1 ∧
    ¬ countActive (updateGmailConnection stC1 "b" updSetActive 5).2 ≤ 1 := by
  decide

/-- Claim C1 (amended): each of createGmailConnection and
deleteGmailConnection, and updateGmailConnection for every partial-fields
argument that does not set isActive to true, maps a gmail_connection state
with at most one active row to a state with at most one active row
(getGmailConnection reads the table and changes nothing). -/
theorem gmail_singleton_preserved (s : List GmailConnection)
    (ins : InsertGmailConnection) (newId uid did : String)
    (u : UpdateGmailConnection) (now : Int)
    (hs : countActive s ≤ 1) (hu : u.isActive ≠ some true) :
    countActive (createGmailConnection s ins newId now).2 ≤ 1 ∧
    countActive (updateGmailConnection s uid u now).2 ≤ 1 ∧
    countActive (deleteGmailConnection s did now) ≤ 1 := by
  refine ⟨?_, ?_, ?_⟩
  · show countActive (_ ++ [_]) ≤ 1
    rw [countActive_append, countActive_deactivateAll, countActive_singleton]
    split <;> simp
  · show countActive (s.map _) ≤ 1
    refine le_trans (countActive_map_le _ ?_ s) hs
    intro r hr
    by_cases hid : r.id = uid
    · rw [if_pos hid] at hr
      unfold applyGmailUpdate at hr
      cases hub : u.isActive with
      | none => rw [hub] at hr; simpa using hr
      | some b =>
        cases b with
        | true => exact absurd hub hu
        | false => rw [hub] at hr; simp at hr
    · rwa [if_neg hid] at hr
  · refine le_trans (countActive_map_le _ ?_ s) hs
    intro r hr
    by_cases hid : r.id = did
    · rw [if_pos hid] at hr; simp at hr
    · rwa [if_neg hid] at hr

theorem gmail_singleton_preserved_witness :
    countActive stC1 ≤ 1 ∧ emptyGmailUpdate.isActive ≠ some true ∧
    (countActive (createGmailConnection stC1 insC1 "c" 7).2 ≤ 1 ∧
     countActive (updateGmailConnection stC1 "a" emptyGmailUpdate 7).2 ≤ 1 ∧
     countActive (deleteGmailConnection stC1 "a" 7) ≤ 1) :=
  ⟨by decide, by decide,
    gmail_singleton_preserved stC1 insC1 "c" "a" "a" emptyGmailUpdate 7
      (by decide) (by decide)⟩

/-- Claim C8 (corrected): on a missing id neither operation raises a
NotFound failure; updateGmailConnection resolves with undefined (none) and
deleteGmailConnection resolves with no effect, the state st with no row of
id b being returned unchanged by both. -/
theorem gmail_missing_id_counterexample :
    (updateGmailConnection stC8 "b" emptyGmailUpdate 7).1 = none ∧
    (updateGmailConnection stC8 "b" emptyGmailUpdate 7).2 = stC8 ∧
    deleteGmailConnection stC8 "b" 7 = stC8 := by
  decide

/-- Claim C8 (amended): for every id not present in the gmail_connection
table, updateGmailConnection returns no row (undefined) and
deleteGmailConnection is a silent no-op; neither fails and neither changes
any stored row. -/
theorem gmail_missing_id_noop (s : List GmailConnection) (id : String)
    (u : UpdateGmailConnection) (now : Int)
    (h : ∀ r ∈ s, r.id ≠ id) :
    (updateGmailConnection s id u now).1 = none ∧
    (updateGmailConnection s id u now).2 = s ∧
    deleteGmailConnection s id now = s := by
  have hupd : (s.map (fun r => if r.id = id then applyGmailUpdate r u now else r)) = s := by
    conv_rhs => rw [← List.map_id s]
    exact List.map_congr_left (fun r hr => by simp [h r hr])
  have hdel : deleteGmailConnection s id now = s := by
    unfold deleteGmailConnection
    conv_rhs => rw [← List.map_id s]
    exact List.map_congr_left (fun r hr => by simp [h r hr])
  refine ⟨?_, ?_, hdel⟩
  · show ((s.map _).filter _).head? = none
    rw [hupd]
    have : s.filter (fun r => r.id == id) = [] :=
      List.filter_eq_nil_iff.mpr (fun r hr => by simp [h r hr])
    rw [this]; rfl
  · exact hupd

theorem gmail_missing_id_noop_witness :
    (∀ r ∈ stC8, r.id ≠ "b") ∧
    ((updateGmailConnection stC8 "b" updSetActive 7).1 = none ∧
     (updateGmailConnection stC8 "b" updSetActive 7).2 = stC8 ∧
     deleteGmailConnection stC8 "b" 7 = stC8) :=
  ⟨by decide, gmail_missing_id_noop stC8 "b" updSetActive 7 (by decide)⟩

/-- Claim C9 (confirmed): the insert schema does not fix isActive, so
creating a connection whose payload sets isActive to false deactivates
every previously active row, inserts the new row inactive, and leaves the
table with no active row at all: getGmailConnection returns none. -/
theorem create_inactive_connection (s : List GmailConnection)
    (ins : InsertGmailConnection) (newId : String) (now : Int)
    (h : ins.isActive = some false) :
    (∀ r ∈ (createGmailConnection s ins newId now).2, r.isActive = false) ∧
    getGmailConnection (createGmailConnection s ins newId now).2 = none := by
  have hall : ∀ r ∈ (createGmailConnection s ins newId now).2, r.isActive = false := by
    intro r hr
    rcases List.mem_append.mp hr with hl | hrr
    · exact countActive_eq_zero.mp (countActive_deactivateAll s now) r hl
    · rcases List.mem_singleton.mp hrr with rfl
      simp [h]
  refine ⟨hall, ?_⟩
  unfold getGmailConnection
  rw [List.filter_eq_nil_iff.mpr (fun r hr => by simp [hall r hr])]
  rfl

theorem create_inactive_connection_witness :
    insC9.isActive = some false ∧
    ((∀ r ∈ (createGmailConnection stC9 insC9 "d" 7).2, r.isActive = false) ∧
     getGmailConnection (createGmailConnection stC9 insC9 "d" 7).2 = none) :=
  ⟨by decide, create_inactive_connection stC9 insC9 "d" 7 (by decide)⟩

/-- Claim C10 (confirmed): deleteGmailConnection touches only the
gmail_connection table, and within it maps each row to itself except that
the rows whose id matches get isActive set to false and updatedAt set to
now; id and all data columns are preserved, and every row of every other
table is unchanged. -/
theorem delete_connection_frame (db : Database) (id : String) (now : Int) :
    List.Forall₂ (deleteFrame id now) db.gmailConnections
      (deleteGmailConnectionDb db id now).gmailConnections ∧
    (deleteGmailConnectionDb db id now).projects = db.projects ∧
    (deleteGmailConnectionDb db id now).timesheets = db.timesheets ∧
    (deleteGmailConnectionDb db id now).equipmentLogs = db.equipmentLogs ∧
    (deleteGmailConnectionDb db id now).subcontractorEntries = db.subcontractorEntries ∧
    (deleteGmailConnectionDb db id now).overheadEntries = db.overheadEntries ∧
    (deleteGmailConnectionDb db id now).progressReports = db.progressReports ∧
    (deleteGmailConnectionDb db id now).materials = db.materials := by
  refine ⟨?_, rfl, rfl, rfl, rfl, rfl, rfl, rfl⟩
  show List.Forall₂ (deleteFrame id now) db.gmailConnections
    (deleteGmailConnection db.gmailConnections id now)
  generalize db.gmailConnections = s
  induction s with
  | nil => exact List.Forall₂.nil
  | cons r rs ih =>
    unfold deleteGmailConnection at ih ⊢
    rw [List.map_cons]
    refine List.Forall₂.cons ?_ ih
    by_cases hid : r.id = id
    · simp [deleteFrame, hid]
    · simp [deleteFrame, hid]

/-- The running reduce over a list of rationals is its sum. -/
theorem foldl_add_id (l : List ℚ) : l.foldl (fun sum val => sum + val) 0 = l.sum := by
  simpa using foldl_add_eq_sum (fun x : ℚ => x) _ (fun s e => rfl) l 0

/-- Filtering a sorted project list a second time and summing a mapped
value is the same as summing over the doubly filtered base table. -/
theorem sum_map_filter_sorted {α : Type} (r : α → α → Prop) [DecidableRel r]
    (p q : α → Bool) (f : α → ℚ) (l : List α) :
    (((List.insertionSort r (l.filter p)).filter q).map f).sum
      = ((l.filter (fun a => p a && q a)).map f).sum := by
  rw [((filter_insertionSort_perm r q (l.filter p)).map f).sum_eq, List.filter_filter]
  rw [List.filter_congr (fun a _ => by rw [Bool.and_comm])]

/-- A statistics request that does not 404 returns exactly the record that
statsOf extracts. -/
theorem statsOf_eq {db : Database} {pid : String} {t : Int}
    (h : (projectStats db pid t).isSome = true) :
    projectStats db pid t = some (statsOf db pid t) := by
  unfold statsOf
  cases hx : projectStats db pid t with
  | none => rw [hx] at h; simp at h
  | some s => simp

/-- Claim C3 (confirmed): each category sum of the statistics is the sum of
the type-specific formula over the rows of the project, totalSpent is
exactly the sum of the five category sums, and a project with no cost
entries has totalSpent = 0 and remaining = totalBudget. -/
theorem stats_category_sums (db : Database) (pid : String) (today : Int)
    (s : BudgetStats) (h : projectStats db pid today = some s) :
    s.laborSpent = ((db.timesheets.filter (fun t => t.projectId == pid)).map
        (fun t => t.hours * t.payRate)).sum ∧
    s.equipmentSpent = ((db.equipmentLogs.filter (fun e => e.projectId == pid)).map
        (fun e => e.fuelCost + e.rentalCost)).sum ∧
    s.subcontractorsSpent = ((db.subcontractorEntries.filter (fun e => e.projectId == pid)).map
        (fun e => e.cost)).sum ∧
    s.overheadSpent = ((db.overheadEntries.filter (fun e => e.projectId == pid)).map
        (fun e => e.cost)).sum ∧
    s.materialsSpent = ((getProjectMaterials db.progressReports db.materials pid).map
        (fun m => m.cost)).sum ∧
    s.totalSpent = s.laborSpent + s.equipmentSpent + s.subcontractorsSpent
      + s.overheadSpent + s.materialsSpent ∧
    (db.timesheets.filter (fun t => t.projectId == pid) = [] →
      db.equipmentLogs.filter (fun e => e.projectId == pid) = [] →
      db.subcontractorEntries.filter (fun e => e.projectId == pid) = [] →
      db.overheadEntries.filter (fun e => e.projectId == pid) = [] →
      getProjectMaterials db.progressReports db.materials pid = [] →
      s.totalSpent = 0 ∧ s.remaining = s.totalBudget) := by
  obtain ⟨p, hp, rfl⟩ := projectStats_some h
  have hl := (computeStats_laborSpent db p pid today).trans (laborSpent_getter db.timesheets pid)
  have he := (computeStats_equipmentSpent db p pid today).trans
    (equipmentSpent_getter db.equipmentLogs pid)
  have hsub := (computeStats_subcontractorsSpent db p pid today).trans
    (subcontractorsSpent_getter db.subcontractorEntries pid)
  have hov := (computeStats_overheadSpent db p pid today).trans
    (overheadSpent_getter db.overheadEntries pid)
  have hm := (computeStats_materialsSpent db p pid today).trans
    (materialsSpentOf_eq (getProjectMaterials db.progressReports db.materials pid))
  refine ⟨hl, he, hsub, hov, hm, computeStats_totalSpent db p pid today, ?_⟩
  intro h1 h2 h3 h4 h5
  have ht0 : (computeStats db p pid today).totalSpent = 0 := by
    rw [computeStats_totalSpent, hl, he, hsub, hov, hm, h1, h2, h3, h4, h5]
    simp
  exact ⟨ht0, by rw [computeStats_remaining, ht0, sub_zero]⟩

theorem stats_category_sums_witness :
    projectStats dbC3 "p1" 0 = some (statsOf dbC3 "p1" 0) ∧
    (statsOf dbC3 "p1" 0).totalSpent
      = (statsOf dbC3 "p1" 0).laborSpent + (statsOf dbC3 "p1" 0).equipmentSpent
        + (statsOf dbC3 "p1" 0).subcontractorsSpent + (statsOf dbC3 "p1" 0).overheadSpent
        + (statsOf dbC3 "p1" 0).materialsSpent :=
  ⟨statsOf_eq (by decide),
    (stats_category_sums dbC3 "p1" 0 (statsOf dbC3 "p1" 0) (statsOf_eq (by decide))).2.2.2.2.2.1⟩

/-- Claim C2 (corrected): the source computes spentToday from timesheets,
equipment logs, subcontractor entries and overhead entries only; a material
of cost 5 under a progress report dated today is counted by the claimed
formula (spentTodaySpec, modelled from the spec) but not by the code, whose
spentToday is 0 on the concrete database dbC2. -/
theorem spentToday_counterexample :
    (statsOf dbC2 "p1" 0).spentToday = 0 ∧
    spentTodaySpec dbC2 "p1" 0 = 5 ∧
    (statsOf dbC2 "p1" 0).spentToday ≠ spentTodaySpec dbC2 "p1" 0 := by
  refine ⟨?_, ?_, ?_⟩ <;>
    norm_num [statsOf, projectStats, getProject, computeStats, dbC2, emptyDb, projC2, repC2,
      matC2, spentTodayOf, spentTodaySpec, getProjectTimesheets, getProjectEquipmentLogs,
      getProjectSubcontractorEntries, getProjectOverheadEntries, List.insertionSort,
      List.orderedInsert, List.filter, List.find?, List.contains]

/-- Claim C2 (amended): for every project and every current date, the
spentToday field equals the sum of the contributions of the cost entries
dated today of four types only — Timesheets (hours times payRate),
EquipmentLogs (fuelCost plus rentalCost), SubcontractorEntries (cost) and
OverheadEntries (cost); Materials are not included in spentToday. -/
theorem spentToday_excludes_materials (db : Database) (pid : String) (today : Int)
    (s : BudgetStats) (h : projectStats db pid today = some s) :
    s.spentToday =
      ((db.timesheets.filter (fun t => t.projectId == pid && t.date == today.fdiv msPerDay)).map
        (fun t => t.hours * t.payRate)).sum
      + ((db.equipmentLogs.filter (fun e => e.projectId == pid && e.date == today.fdiv msPerDay)).map
        (fun e => e.fuelCost + e.rentalCost)).sum
      + ((db.subcontractorEntries.filter (fun e => e.projectId == pid && e.date == today.fdiv msPerDay)).map
        (fun e => e.cost)).sum
      + ((db.overheadEntries.filter (fun o => o.projectId == pid && o.date == today.fdiv msPerDay)).map
        (fun o => o.cost)).sum := by
  obtain ⟨p, hp, rfl⟩ := projectStats_some h
  rw [computeStats_spentToday]
  unfold spentTodayOf
  rw [foldl_add_id, List.sum_append, List.sum_append, List.sum_append]
  unfold getProjectTimesheets getProjectEquipmentLogs getProjectSubcontractorEntries
    getProjectOverheadEntries
  rw [sum_map_filter_sorted, sum_map_filter_sorted, sum_map_filter_sorted,
    sum_map_filter_sorted]

theorem spentToday_excludes_materials_witness :
    projectStats dbC2 "p1" 0 = some (statsOf dbC2 "p1" 0) ∧
    (statsOf dbC2 "p1" 0).spentToday =
      ((dbC2.timesheets.filter (fun t => t.projectId == "p1" && t.date == (0 : Int).fdiv msPerDay)).map
        (fun t => t.hours * t.payRate)).sum
      + ((dbC2.equipmentLogs.filter (fun e => e.projectId == "p1" && e.date == (0 : Int).fdiv msPerDay)).map
        (fun e => e.fuelCost + e.rentalCost)).sum
      + ((dbC2.subcontractorEntries.filter (fun e => e.projectId == "p1" && e.date == (0 : Int).fdiv msPerDay)).map
        (fun e => e.cost)).sum
      + ((dbC2.overheadEntries.filter (fun o => o.projectId == "p1" && o.date == (0 : Int).fdiv msPerDay)).map
        (fun o => o.cost)).sum :=
  ⟨statsOf_eq (by decide),
    spentToday_excludes_materials dbC2 "p1" 0 (statsOf dbC2 "p1" 0) (statsOf_eq (by decide))⟩

/-- Claim C4 (confirmed): projectedFinalCost is totalBudget when the latest
percentComplete is 0 and totalSpent / percentComplete * 100 when it is
positive, variance is projectedFinalCost minus totalBudget, and the spec
scenario (totalBudget 50000, percentComplete 50, totalSpent 30000) yields
projectedFinalCost 60000 and variance 10000. -/
theorem projected_final_cost (db : Database) (pid : String) (today : Int)
    (s : BudgetStats) (h : projectStats db pid today = some s) :
    ((s.percentComplete = 0 → s.projectedFinalCost = s.totalBudget) ∧
     (0 < s.percentComplete →
       s.projectedFinalCost = s.totalSpent / (s.percentComplete : ℚ) * 100) ∧
     s.variance = s.projectedFinalCost - s.totalBudget) ∧
    (statsC4.projectedFinalCost = 60000 ∧ statsC4.variance = 10000) := by
  constructor
  · obtain ⟨p, hp, rfl⟩ := projectStats_some h
    refine ⟨?_, ?_, computeStats_variance db p pid today⟩
    · intro h0
      rw [computeStats_projectedFinalCost, h0]
      simp
    · intro hpos
      rw [computeStats_projectedFinalCost, if_pos hpos]
  · constructor <;>
      norm_num [statsC4, statsOf, projectStats, getProject, computeStats, dbC4, emptyDb,
        latestProgressOf, getProjectProgressReports, List.insertionSort, List.orderedInsert,
        List.filter, List.find?, subcontractorsSpentOf, laborSpentOf, equipmentSpentOf,
        overheadSpentOf, materialsSpentOf, getProjectMaterials, daysSinceStart, mathCeilDiv,
        msPerDay, spentTodayOf, getProjectTimesheets, getProjectEquipmentLogs,
        getProjectSubcontractorEntries, getProjectOverheadEntries]

theorem projected_final_cost_witness :
    projectStats dbC4 "p4" msPerDay = some statsC4 ∧
    ((statsC4.percentComplete = 0 → statsC4.projectedFinalCost = statsC4.totalBudget) ∧
     (0 < statsC4.percentComplete →
       statsC4.projectedFinalCost = statsC4.totalSpent / (statsC4.percentComplete : ℚ) * 100) ∧
     statsC4.variance = statsC4.projectedFinalCost - statsC4.totalBudget) :=
  ⟨statsOf_eq (by decide),
    (projected_final_cost dbC4 "p4" msPerDay statsC4 (statsOf_eq (by decide))).1⟩

/-- Claim C5 (confirmed): the percentComplete field is 0 when the project
has no progress reports, and otherwise equals the percentComplete of the
report whose (date, createdAt) key strictly dominates every other report of
the project — the most recently dated report, ties on date broken by the
most recent createdAt. -/
theorem latest_progress_report (db : Database) (pid : String) (today : Int)
    (s : BudgetStats) (h : projectStats db pid today = some s) :
    (db.progressReports.filter (fun r => r.projectId == pid) = [] →
      s.percentComplete = 0) ∧
    (∀ rep, rep ∈ db.progressReports → rep.projectId = pid →
      (∀ other, other ∈ db.progressReports → other.projectId = pid → other ≠ rep →
        keyLt (other.date, other.createdAt) (rep.date, rep.createdAt)) →
      s.percentComplete = rep.percentComplete) := by
  obtain ⟨p, hp, rfl⟩ := projectStats_some h
  rw [computeStats_percentComplete]
  constructor
  · intro h0
    unfold getProjectProgressReports
    rw [h0]
    rfl
  · intro rep hmem hpid hmax
    have hrepF : rep ∈ db.progressReports.filter (fun r => r.projectId == pid) :=
      List.mem_filter.mpr ⟨hmem, by simp [hpid]⟩
    have hrepL : rep ∈ getProjectProgressReports db.progressReports pid := by
      unfold getProjectProgressReports
      exact (List.mem_insertionSort _).mpr hrepF
    cases hL : getProjectProgressReports db.progressReports pid with
    | nil => rw [hL] at hrepL; exact absurd hrepL (List.not_mem_nil rep)
    | cons hd tl =>
      rw [hL] at hrepL
      show latestProgressOf (hd :: tl) = rep.percentComplete
      by_cases hhd : hd = rep
      · rw [latestProgressOf, hhd]
      · have hhdL : hd ∈ getProjectProgressReports db.progressReports pid := by
          rw [hL]; exact List.mem_cons_self hd tl
        have hhdF : hd ∈ db.progressReports.filter (fun r => r.projectId == pid) := by
          unfold getProjectProgressReports at hhdL
          exact (List.mem_insertionSort _).mp hhdL
        have hhdmem : hd ∈ db.progressReports := (List.mem_filter.mp hhdF).1
        have hhdpid : hd.projectId = pid := by
          have := (List.mem_filter.mp hhdF).2
          simpa using this
        have hlt := hmax hd hhdmem hhdpid hhd
        have hsorted : List.Sorted (byDateCreatedDesc (fun r => (r.date, r.createdAt)))
            (getProjectProgressReports db.progressReports pid) := by
          unfold getProjectProgressReports
          exact List.sorted_insertionSort _ _
        rw [hL] at hsorted
        have hrep_tl : rep ∈ tl := by
          rcases List.mem_cons.mp hrepL with h1 | h1
          · exact absurd h1.symm hhd
          · exact h1
        have hge := List.rel_of_sorted_cons hsorted rep hrep_tl
        exfalso
        unfold byDateCreatedDesc keyGe at hge
        unfold keyLt at hlt
        dsimp only at hge hlt
        omega

theorem latest_progress_report_witness :
    projectStats dbC5 "p5" 0 = some (statsOf dbC5 "p5" 0) ∧
    repC5 ∈ dbC5.progressReports ∧ repC5.projectId = "p5" ∧
    (statsOf dbC5 "p5" 0).percentComplete = repC5.percentComplete :=
  ⟨statsOf_eq (by decide), by decide, by decide,
    (latest_progress_report dbC5 "p5" 0 (statsOf dbC5 "p5" 0) (statsOf_eq (by decide))).2
      repC5 (by decide) (by decide) (by decide)⟩

/-- Claim C6 (confirmed): daysSinceStart is the ceiling of the elapsed time
in days floored at 1, so the dailyBurnRate division never divides by zero
or by a negative number, even when the start date is today or in the
future; and the dailyBurnRate field is exactly totalSpent divided by that
guarded day count. -/
theorem daily_burn_rate_safe :
    (∀ startDate todayMs : Int, 1 ≤ daysSinceStart startDate todayMs) ∧
    (∀ (db : Database) (pid : String) (today : Int) (s : BudgetStats),
      projectStats db pid today = some s →
      ∀ p, getProject db pid = some p →
        s.dailyBurnRate = s.totalSpent / ((daysSinceStart p.startDate today : Int) : ℚ)) := by
  constructor
  · intro sd t
    exact le_max_left 1 _
  · intro db pid today s h p hp
    obtain ⟨q, hq, rfl⟩ := projectStats_some h
    rw [hp] at hq
    obtain rfl : p = q := Option.some.inj hq
    exact computeStats_dailyBurnRate db p pid today

theorem daily_burn_rate_safe_witness :
    1 ≤ daysSinceStart 0 0 ∧
    (statsOf dbC6 "p6" 0).dailyBurnRate
      = (statsOf dbC6 "p6" 0).totalSpent / ((daysSinceStart (0 : Int) 0 : Int) : ℚ) :=
  ⟨daily_burn_rate_safe.1 0 0,
    daily_burn_rate_safe.2 dbC6 "p6" 0 (statsOf dbC6 "p6" 0) (statsOf_eq (by decide))
      { id := "p6", totalBudget := 100, startDate := 0, endDate := none } (by rfl)⟩

/-- Prepending a row of non-negative mapped value never decreases the sum
over a filtered list. -/
theorem sum_map_filter_cons_le {α : Type} (p : α → Bool) (f : α → ℚ) (a : α)
    (l : List α) (h : 0 ≤ f a) :
    ((l.filter p).map f).sum ≤ (((a :: l).filter p).map f).sum := by
  rw [List.filter_cons]
  by_cases hp : p a
  · simp only [hp, if_true, List.map_cons, List.sum_cons]
    linarith
  · simp [hp]

/-- totalSpent written out as the five doubly filtered sums over the base
tables. -/
theorem totalSpent_eq (db : Database) (p : Project) (pid : String) (t : Int) :
    (computeStats db p pid t).totalSpent
      = ((db.timesheets.filter (fun x => x.projectId == pid)).map
          (fun x => x.hours * x.payRate)).sum
        + ((db.equipmentLogs.filter (fun x => x.projectId == pid)).map
          (fun x => x.fuelCost + x.rentalCost)).sum
        + ((db.subcontractorEntries.filter (fun x => x.projectId == pid)).map
          (fun x => x.cost)).sum
        + ((db.overheadEntries.filter (fun x => x.projectId == pid)).map
          (fun x => x.cost)).sum
        + ((db.materials.filter (fun m =>
              ((db.progressReports.filter (fun r => r.projectId == pid)).map
                (fun r => r.id)).contains m.progressReportId)).map
          (fun m => m.cost)).sum := by
  rw [computeStats_totalSpent, computeStats_laborSpent, computeStats_equipmentSpent,
    computeStats_subcontractorsSpent, computeStats_overheadSpent, computeStats_materialsSpent,
    laborSpent_getter, equipmentSpent_getter, subcontractorsSpent_getter, overheadSpent_getter,
    materialsSpentOf_eq, getProjectMaterials_eq]

/-- Claim C7 (confirmed): with a positive totalBudget, adding one cost
entry of non-negative contribution never decreases percentUsed. -/
theorem percentUsed_monotone (db : Database) (pid : String) (today : Int)
    (e : CostEntry) (s s' : BudgetStats)
    (h : projectStats db pid today = some s)
    (h' : projectStats (addCostEntry db e) pid today = some s')
    (hb : 0 < s.totalBudget) (hc : 0 ≤ costEntryContribution e) :
    s.percentUsed ≤ s'.percentUsed := by
  obtain ⟨p, hp, rfl⟩ := projectStats_some h
  obtain ⟨q, hq, rfl⟩ := projectStats_some h'
  have hproj : getProject (addCostEntry db e) pid = getProject db pid := by
    cases e <;> rfl
  rw [hproj, hp] at hq
  obtain rfl : p = q := Option.some.inj hq
  have hb' : 0 < p.totalBudget := by
    rw [computeStats_totalBudget] at hb
    exact hb
  have hspent : (computeStats db p pid today).totalSpent
      ≤ (computeStats (addCostEntry db e) p pid today).totalSpent := by
    rw [totalSpent_eq, totalSpent_eq]
    cases e with
    | timesheet t =>
      simp only [addCostEntry]
      gcongr
      exact sum_map_filter_cons_le _ _ _ _ (by simpa [costEntryContribution] using hc)
    | equipmentLog el =>
      simp only [addCostEntry]
      gcongr
      exact sum_map_filter_cons_le _ _ _ _ (by simpa [costEntryContribution] using hc)
    | subcontractorEntry se =>
      simp only [addCostEntry]
      gcongr
      exact sum_map_filter_cons_le _ _ _ _ (by simpa [costEntryContribution] using hc)
    | overheadEntry oe =>
      simp only [addCostEntry]
      gcongr
      exact sum_map_filter_cons_le _ _ _ _ (by simpa [costEntryContribution] using hc)
    | material m =>
      simp only [addCostEntry]
      gcongr
      exact sum_map_filter_cons_le _ _ _ _ (by simpa [costEntryContribution] using hc)
  rw [computeStats_percentUsed, computeStats_percentUsed,
    computeStats_totalBudget, computeStats_totalBudget]
  gcongr

theorem percentUsed_monotone_witness :
    projectStats dbC7 "p7" 0 = some (statsOf dbC7 "p7" 0) ∧
    projectStats (addCostEntry dbC7 entC7) "p7" 0
      = some (statsOf (addCostEntry dbC7 entC7) "p7" 0) ∧
    0 < (statsOf dbC7 "p7" 0).totalBudget ∧
    0 ≤ costEntryContribution entC7 ∧
    (statsOf dbC7 "p7" 0).percentUsed
      ≤ (statsOf (addCostEntry dbC7 entC7) "p7" 0).percentUsed := by
  have h1 : projectStats dbC7 "p7" 0 = some (statsOf dbC7 "p7" 0) := statsOf_eq (by decide)
  have h2 : projectStats (addCostEntry dbC7 entC7) "p7" 0
      = some (statsOf (addCostEntry dbC7 entC7) "p7" 0) := statsOf_eq (by decide)
  have h3 : 0 < (statsOf dbC7 "p7" 0).totalBudget := by
    norm_num [statsOf, projectStats, getProject, computeStats, dbC7, emptyDb,
      List.find?, List.filter]
  have h4 : 0 ≤ costEntryContribution entC7 := by
    norm_num [costEntryContribution, entC7]
  exact ⟨h1, h2, h3, h4,
    percentUsed_monotone dbC7 "p7" 0 entC7 (statsOf dbC7 "p7" 0)
      (statsOf (addCostEntry dbC7 entC7) "p7" 0) h1 h2 h3 h4⟩
